import Mathlib

/-!
Verification development for the kube-pulse terminal dashboard.

The embedding follows `src/unnamed/part_000` (the full application); `src/main.go`
is an earlier revision of the same program whose cited functions (`filterPods`,
`calculatePagination`, the note-resolution loop of `fetchPods`) are textually
identical in the parts the claims touch, so one embedding covers both.

Modelling conventions:
* Go `int`/`int32`/`int64` fields are embedded as `Int`.  None of the verified
  properties exercises integer overflow (restart counts are only compared with
  0 and 5, usage values only ordered), so wrap-around is not modelled.
* The Kubernetes client, the metrics client and the spawned subprocesses are
  external collaborators; they enter the model only through the data their
  results carry (`Except` for fallible list calls, `Option` for best-effort
  metrics) exactly as the fetch functions consume them.
* Go's `sort.Slice` guarantees only that the slice ends up ordered by the
  supplied comparator; it is documented as NOT stable.  It is therefore
  embedded as a relation (`sortSliceOk`): the output is some permutation of
  the input whose consecutive elements are ordered by the comparator.
* The bubbletea text input is modelled by its value: a printable key appends
  its character, backspace drops the last one, every other key leaves the
  value unchanged.
* Go panics (out-of-range slice indexing, nil-pointer dereference) correspond
  to step-relation side conditions: where the program would crash, the step
  relation admits no successor state.  The one exception is
  `m.namespaces[m.currentNsIdx]`, modelled total via `List.getD` with default
  `""`; no claim exercises the out-of-range case.
* `time.Since`/`shortAge` formatting is out of scope (wall clock); the age
  string is carried as an input field of the raw pod data.
-/

namespace KubePulse

/-! ### String helpers (Go `strings.Contains` / `strings.ToLower`) -/

/-- Substring test on character lists: `needle` occurs contiguously in `hay`.
Mirrors Go `strings.Contains` for the ASCII data the dashboard handles. -/
def subList (needle : List Char) : List Char → Bool
  | [] => needle.isEmpty
  | c :: t => needle.isPrefixOf (c :: t) || subList needle t

/-- Here `strContains hay needle` is Go `strings.Contains(hay, needle)`. -/
def strContains (hay needle : String) : Bool :=
  subList needle.data hay.data

/-- Go `strings.ToLower` for the ASCII identifiers the dashboard handles
(namespace, pod and container names): lower-case every character. -/
def strToLower (s : String) : String :=
  String.mk (s.data.map Char.toLower)

/-- Go's byte-wise lexicographic string comparison `a < b`, character by
character (identical to the byte order on the ASCII data involved). -/
def charListLt : List Char → List Char → Bool
  | [], [] => false
  | [], _ :: _ => true
  | _ :: _, [] => false
  | a :: as, b :: bs =>
    if a < b then true else if b < a then false else charListLt as bs

/-- Here `strLt a b` is Go `a < b` on strings. -/
def strLt (a b : String) : Bool :=
  charListLt a.data b.data

/-! ### Data model (`PodInfo`, `ClusterStats`, enums) -/

/-- Struct `PodInfo` from part_000 lines 62-79 (superset of main.go's). -/
structure PodInfo where
  Namespace : String
  Name : String
  Ready : String
  Status : String
  Restarts : Int
  CpuUsage : String
  MemUsage : String
  RawCpu : Int
  RawMem : Int
  NodeName : String
  PodIP : String
  IsReady : Bool
  Message : String
  Port : Int
  Age : String
  Containers : List String
deriving DecidableEq, Repr

/-- Struct `ClusterStats` from part_000 lines 81-84. -/
structure ClusterStats where
  TotalCpuUsage : Int
  TotalMemUsage : Int
  TotalCpuCap : Int
  TotalMemCap : Int
  NodeCount : Int
deriving DecidableEq, Repr

/-- The zero value `ClusterStats{}` that Go produces for an empty literal. -/
def ClusterStats.zero : ClusterStats := ⟨0, 0, 0, 0, 0⟩

/-- The `sessionState` constants, part_000 lines 88-97. -/
inductive sessionState where
  | viewList
  | viewLogs
  | viewDiagnosis
  | viewYaml
  | viewDeleteConfirm
  | viewRestartConfirm
  | viewCleanseConfirm
  | viewContainerSelect
deriving DecidableEq, Repr

/-- The `sortMode` constants, part_000 lines 99-105. -/
inductive sortMode where
  | sortDefault
  | sortCPU
  | sortMem
deriving DecidableEq, Repr

/-- The state-machine-relevant fields of the `model` struct (part_000 lines
107-143).  Clients, viewport internals and process handles are external; the
port-forward registry is kept as its key set. -/
structure Model where
  pods : List PodInfo
  filteredPods : List PodInfo
  clusterStats : ClusterStats
  namespaces : List String
  currentNsIdx : Nat
  state : sessionState
  sort : sortMode
  cursor : Nat
  showIssues : Bool
  loading : Bool
  msg : String
  textInputValue : String
  searchActive : Bool
  podToDelete : Option PodInfo
  logContent : String
  diagContent : String
  yamlContent : String
  selectedPod : Option PodInfo
  containerList : List String
  containerCursor : Nat
  targetAction : String
  width : Int
  height : Int
  activeForwards : List String
deriving DecidableEq, Repr

/-! ### Filter and sort engine (`filterPods`, part_000 lines 487-530) -/

/-- The namespace the filter reads: `m.namespaces[m.currentNsIdx]`.
Out-of-range (a Go panic, reachable only after a shrinking namespace fetch)
is modelled total with default `""`. -/
def selectedNsOf (m : Model) : String :=
  m.namespaces.getD m.currentNsIdx ""

/-- The three `continue` tests of the filter loop, part_000 lines 492-509:
a pod is kept iff it survives the namespace test, the issues-only test and
the search test.  `searchTerm` is already lower-cased by the caller. -/
def keepPod (selectedNs : String) (showIssues : Bool) (searchTerm : String)
    (p : PodInfo) : Bool :=
  if selectedNs ≠ "ALL" ∧ p.Namespace ≠ selectedNs then false
  else if showIssues = true ∧
      ((p.Status = "Running" ∨ p.Status = "Succeeded") ∧ p.Restarts = 0 ∧
        p.IsReady = true) then false
  else if searchTerm ≠ "" ∧ strContains (strToLower p.Name) searchTerm = false
    then false
  else true

/-- The filtered (pre-sort) list `target` built by the loop of `filterPods`. -/
def filterPodsSet (m : Model) : List PodInfo :=
  m.pods.filter
    (keepPod (selectedNsOf m) m.showIssues (strToLower m.textInputValue))

/-- The comparator passed to `sort.Slice`, part_000 lines 512-527. -/
def podLess (mode : sortMode) (x y : PodInfo) : Bool :=
  match mode with
  | .sortCPU => decide (y.RawCpu < x.RawCpu)
  | .sortMem => decide (y.RawMem < x.RawMem)
  | .sortDefault =>
    if x.Status ≠ "Running" ∧ y.Status = "Running" then true
    else if x.Status = "Running" ∧ y.Status ≠ "Running" then false
    else strLt x.Name y.Name

/-- Post-condition of Go's (unstable) `sort.Slice`: consecutive elements are
ordered by the comparator (`¬ less a[i+1] a[i]`). -/
def sortedSlice (less : PodInfo → PodInfo → Bool) : List PodInfo → Bool
  | [] => true
  | [_] => true
  | a :: b :: t => !less b a && sortedSlice less (b :: t)

/-- Full contract of `sort.Slice less input = out`: `out` is a permutation of
`input` that is ordered by `less`.  Stability is deliberately NOT part of the
contract — Go documents `sort.Slice` as unstable (`sort.SliceStable` is the
stable variant and is not used by this program). -/
def sortSliceOk (less : PodInfo → PodInfo → Bool)
    (input out : List PodInfo) : Prop :=
  input.Perm out ∧ sortedSlice less out = true

/-- Relation `m.filterPods()` recomputed `out` for model `m`: the filter loop followed
by `sort.Slice` with the active comparator. -/
def FilterOk (m : Model) (out : List PodInfo) : Prop :=
  sortSliceOk (podLess m.sort) (filterPodsSet m) out

/-! ### Pagination (`calculatePagination`, part_000 lines 724-739) -/

/-- The per-page capacity: `perPage := m.height - 12; if perPage <= 0 then 5`. -/
def perPageOf (height : Int) : Int :=
  if height - 12 ≤ 0 then 5 else height - 12

/-- Function `calculatePagination` returns the half-open visible window. -/
def calculatePagination (m : Model) : Int × Int :=
  let perPage := perPageOf m.height
  let len : Int := m.filteredPods.length
  if perPage < len then
    if (m.cursor : Int) < perPage then (0, perPage)
    else ((m.cursor : Int) - perPage + 1, (m.cursor : Int) + 1)
  else (0, len)

/-! ### Commands dispatched by the update function (`tea.Cmd` values) -/

/-- The asynchronous or external commands the state machine can dispatch. -/
inductive Cmd where
  | quit
  | tick
  | blink
  | fetchPods
  | fetchClusterStats
  | fetchNamespaces
  | fetchLogs (p : PodInfo) (container : String)
  | openShell (ns name container : String)
  | diagnose (p : PodInfo)
  | fetchYaml (ns name : String)
  | cleanse (ns : String)
  | deletePod (p : PodInfo)
deriving DecidableEq, Repr

/-! ### Multi-container action entry (`initiateAction`, part_000 lines 461-484) -/

/-- Function `initiateAction`: more than one container opens the picker; otherwise the
action resolves at once with the first container name, or `""` if the pod
declares no containers. -/
def initiateAction (m : Model) (pod : PodInfo) (action : String) :
    Model × List Cmd :=
  if 1 < pod.Containers.length then
    ({ m with selectedPod := some pod, containerList := pod.Containers,
              targetAction := action, state := .viewContainerSelect,
              containerCursor := 0 }, [])
  else
    let container := pod.Containers.headD ""
    if action = "logs" then
      ({ m with selectedPod := some pod, state := .viewLogs,
                msg := "Logs: " ++ pod.Name }, [.fetchLogs pod container])
    else
      (m, [.openShell pod.Namespace pod.Name container])

/-! ### Events consumed by `Update` (`tea.Msg` values) -/

/-- The discrete events of the serialized event loop. `nilMsg` stands for a
`nil` `tea.Msg`, which bubbletea drops without invoking `Update`. -/
inductive Ev where
  | winSize (w h : Int)
  | key (k : String)
  | tick
  | podsMsg (ps : List PodInfo)
  | statsMsg (s : ClusterStats)
  | nsMsg (ns : List String)
  | logsMsg (s : String)
  | diagMsg (s : String)
  | yamlMsg (s : String)
  | deleteMsg (s : String)
  | nilMsg

/-- Effect of a key on the search text input's value (bubbles `textinput`):
printable keys append, backspace deletes the last character, everything else
leaves the value alone. -/
def updateTextInput (v k : String) : String :=
  if k.length = 1 then v ++ k
  else if k = "backspace" then v.dropRight 1
  else v

/-! ### The update function as a step relation

`StepRel m ev m' cs` holds iff processing event `ev` in model `m` can yield
model `m'` while dispatching commands `cs`.  The only nondeterminism is the
permutation chosen by `sort.Slice` (and the success of a port-forward spawn);
where Go would panic there is no successor. -/

/-- Default `PodInfo`; only read under an in-bounds side condition, so its
value never reaches a theorem. -/
def dPod : PodInfo :=
  ⟨"", "", "", "", 0, "", "", 0, 0, "", "", false, "", 0, "", []⟩

/-- Index advance `m.currentNsIdx++` with wrap to 0 at the end of the list (part_000
lines 263-266). -/
def nextNsIdx (m : Model) : Nat :=
  if m.namespaces.length ≤ m.currentNsIdx + 1 then 0 else m.currentNsIdx + 1

/-- The "f" key (part_000 lines 327-349): stop an active forward, or spawn a
new one; the spawn may fail with some error text. -/
def forwardToggle (m : Model) (p : PodInfo) (m' : Model) (cs : List Cmd) : Prop :=
  let key := p.Namespace ++ "/" ++ p.Name
  if key ∈ m.activeForwards then
    m' = { m with activeForwards := m.activeForwards.erase key,
                  msg := "Stopped forwarding " ++ p.Name } ∧ cs = []
  else
    (m' = { m with activeForwards := key :: m.activeForwards,
                   msg := "Forwarding " ++ p.Name ++ " -> :8080" } ∧ cs = []) ∨
    (∃ e, m' = { m with msg := "Forward fail: " ++ e } ∧ cs = [])

/-- Key handling in `viewList` state (part_000 lines 227-350). -/
def listKey (m : Model) (k : String) (m' : Model) (cs : List Cmd) : Prop :=
  if k = "q" ∨ k = "ctrl+c" then m' = m ∧ cs = [.quit]
  else if k = "up" ∨ k = "k" then
    m' = { m with cursor := if 0 < m.cursor then m.cursor - 1 else m.cursor } ∧
    cs = []
  else if k = "down" ∨ k = "j" then
    m' = { m with cursor := if m.cursor + 1 < m.filteredPods.length then
                              m.cursor + 1 else m.cursor } ∧ cs = []
  else if k = "/" then m' = { m with searchActive := true } ∧ cs = [.blink]
  else if k = "c" then
    ∃ out, FilterOk { m with sort := .sortCPU } out ∧
      m' = { m with sort := .sortCPU, filteredPods := out,
                    msg := "Sort: CPU Usage" } ∧ cs = []
  else if k = "m" then
    ∃ out, FilterOk { m with sort := .sortMem } out ∧
      m' = { m with sort := .sortMem, filteredPods := out,
                    msg := "Sort: Memory Usage" } ∧ cs = []
  else if k = "n" then
    if 1 < m.namespaces.length then
      ∃ out,
        FilterOk { m with currentNsIdx := nextNsIdx m, cursor := 0,
                          sort := .sortDefault } out ∧
        m' = { m with currentNsIdx := nextNsIdx m, cursor := 0,
                      sort := .sortDefault, filteredPods := out } ∧ cs = []
    else m' = m ∧ cs = []
  else if k = "tab" then
    ∃ out,
      FilterOk { m with showIssues := !m.showIssues, cursor := 0 } out ∧
      m' = { m with showIssues := !m.showIssues, cursor := 0,
                    filteredPods := out,
                    msg := if !m.showIssues then "Filter: Issues Only"
                           else "Filter: Showing All" } ∧ cs = []
  else if k = "enter" then
    if 0 < m.filteredPods.length then
      m.cursor < m.filteredPods.length ∧
      initiateAction m (m.filteredPods.getD m.cursor dPod) "logs" = (m', cs)
    else m' = m ∧ cs = []
  else if k = "s" then
    if 0 < m.filteredPods.length then
      m.cursor < m.filteredPods.length ∧
      initiateAction m (m.filteredPods.getD m.cursor dPod) "shell" = (m', cs)
    else m' = m ∧ cs = []
  else if k = "?" then
    if 0 < m.filteredPods.length then
      m.cursor < m.filteredPods.length ∧
      m' = { m with selectedPod := some (m.filteredPods.getD m.cursor dPod),
                    state := .viewDiagnosis,
                    msg := "Diagnosing " ++
                      (m.filteredPods.getD m.cursor dPod).Name ++ "..." } ∧
      cs = [.diagnose (m.filteredPods.getD m.cursor dPod)]
    else m' = m ∧ cs = []
  else if k = "y" then
    if 0 < m.filteredPods.length then
      m.cursor < m.filteredPods.length ∧
      m' = { m with selectedPod := some (m.filteredPods.getD m.cursor dPod),
                    state := .viewYaml, msg := "Fetching YAML..." } ∧
      cs = [.fetchYaml (m.filteredPods.getD m.cursor dPod).Namespace
              (m.filteredPods.getD m.cursor dPod).Name]
    else m' = m ∧ cs = []
  else if k = "r" then
    if 0 < m.filteredPods.length then
      m.cursor < m.filteredPods.length ∧
      m' = { m with podToDelete := some (m.filteredPods.getD m.cursor dPod),
                    state := .viewRestartConfirm } ∧ cs = []
    else m' = m ∧ cs = []
  else if k = "d" then
    if 0 < m.filteredPods.length then
      m.cursor < m.filteredPods.length ∧
      m' = { m with podToDelete := some (m.filteredPods.getD m.cursor dPod),
                    state := .viewDeleteConfirm } ∧ cs = []
    else m' = m ∧ cs = []
  else if k = "C" then
    if selectedNsOf m = "ALL" then
      m' = { m with
        msg := "⚠️ Cannot Cleanse \x27ALL\x27. Select a namespace." } ∧
      cs = []
    else m' = { m with state := .viewCleanseConfirm } ∧ cs = []
  else if k = "f" then
    if 0 < m.filteredPods.length then
      m.cursor < m.filteredPods.length ∧
      forwardToggle m (m.filteredPods.getD m.cursor dPod) m' cs
    else m' = m ∧ cs = []
  else m' = m ∧ cs = []

/-- Key handling in `viewContainerSelect` state (part_000 lines 353-375). -/
def pickerKey (m : Model) (k : String) (m' : Model) (cs : List Cmd) : Prop :=
  if k = "esc" ∨ k = "q" then
    m' = { m with state := .viewList, msg := "Cancelled" } ∧ cs = []
  else if k = "up" ∨ k = "k" then
    m' = { m with containerCursor := if 0 < m.containerCursor then
                    m.containerCursor - 1 else m.containerCursor } ∧ cs = []
  else if k = "down" ∨ k = "j" then
    m' = { m with containerCursor :=
            if m.containerCursor + 1 < m.containerList.length then
              m.containerCursor + 1 else m.containerCursor } ∧ cs = []
  else if k = "enter" then
    m.containerCursor < m.containerList.length ∧
    (if m.targetAction = "logs" then
      ∃ p, m.selectedPod = some p ∧
        m' = { m with state := .viewLogs } ∧
        cs = [.fetchLogs p (m.containerList.getD m.containerCursor "")]
    else if m.targetAction = "shell" then
      ∃ p, m.selectedPod = some p ∧
        m' = { m with state := .viewList } ∧
        cs = [.openShell p.Namespace p.Name
                (m.containerList.getD m.containerCursor "")]
    else m' = { m with state := .viewList } ∧ cs = [])
  else m' = m ∧ cs = []

/-- Key handling in `viewCleanseConfirm` state (part_000 lines 377-386). -/
def cleanseKey (m : Model) (k : String) (m' : Model) (cs : List Cmd) : Prop :=
  if k = "y" ∨ k = "Y" then
    m' = { m with state := .viewList } ∧ cs = [.cleanse (selectedNsOf m)]
  else if k = "n" ∨ k = "N" ∨ k = "esc" ∨ k = "q" then
    m' = { m with state := .viewList, msg := "Cleanse cancelled." } ∧ cs = []
  else m' = m ∧ cs = []

/-- Key handling in `viewRestartConfirm` state (part_000 lines 387-399);
the affirmative key dereferences `m.podToDelete`. -/
def restartKey (m : Model) (k : String) (m' : Model) (cs : List Cmd) : Prop :=
  if k = "y" ∨ k = "Y" then
    ∃ p, m.podToDelete = some p ∧
      m' = { m with msg := "Restarting " ++ p.Name ++ "...",
                    podToDelete := none, state := .viewList } ∧
      cs = [.deletePod p]
  else if k = "n" ∨ k = "N" ∨ k = "esc" ∨ k = "q" then
    m' = { m with podToDelete := none, state := .viewList,
                  msg := "Restart cancelled." } ∧ cs = []
  else m' = m ∧ cs = []

/-- Key handling in `viewDeleteConfirm` state (part_000 lines 400-412). -/
def deleteKey (m : Model) (k : String) (m' : Model) (cs : List Cmd) : Prop :=
  if k = "y" ∨ k = "Y" then
    ∃ p, m.podToDelete = some p ∧
      m' = { m with msg := "Deleting " ++ p.Name ++ "...",
                    podToDelete := none, state := .viewList } ∧
      cs = [.deletePod p]
  else if k = "n" ∨ k = "N" ∨ k = "esc" ∨ k = "q" then
    m' = { m with podToDelete := none, state := .viewList,
                  msg := "Delete cancelled." } ∧ cs = []
  else m' = m ∧ cs = []

/-- Key handling in the three read-only overlays (part_000 lines 413-421);
unhandled keys scroll the viewport, which is outside the model. -/
def overlayKey (m : Model) (k : String) (m' : Model) (cs : List Cmd) : Prop :=
  if k = "esc" ∨ k = "q" then
    m' = { m with state := .viewList, msg := "Dashboard" } ∧ cs = []
  else m' = m ∧ cs = []

/-- One step of `Update` (part_000 lines 203-458). -/
def StepRel (m : Model) (ev : Ev) (m' : Model) (cs : List Cmd) : Prop :=
  match ev with
  | .winSize w h => m' = { m with width := w, height := h } ∧ cs = []
  | .key k =>
    if m.searchActive then
      if k = "enter" ∨ k = "esc" then
        m' = { m with searchActive := false } ∧ cs = []
      else
        ∃ out,
          FilterOk { m with textInputValue := updateTextInput m.textInputValue k }
            out ∧
          m' = { m with textInputValue := updateTextInput m.textInputValue k,
                        filteredPods := out } ∧ cs = []
    else
      match m.state with
      | .viewList => listKey m k m' cs
      | .viewContainerSelect => pickerKey m k m' cs
      | .viewCleanseConfirm => cleanseKey m k m' cs
      | .viewRestartConfirm => restartKey m k m' cs
      | .viewDeleteConfirm => deleteKey m k m' cs
      | _ => overlayKey m k m' cs
  | .tick => m' = m ∧ cs = [.fetchPods, .fetchClusterStats, .tick]
  | .podsMsg ps =>
    ∃ out, FilterOk { m with pods := ps, loading := false } out ∧
      m' = { m with pods := ps, loading := false, filteredPods := out,
                    cursor := if out.length ≤ m.cursor then
                                (if 0 < out.length then out.length - 1 else 0)
                              else m.cursor } ∧ cs = []
  | .statsMsg s => m' = { m with clusterStats := s } ∧ cs = []
  | .nsMsg ns => m' = { m with namespaces := "ALL" :: ns } ∧ cs = []
  | .logsMsg s => m' = { m with logContent := s } ∧ cs = []
  | .diagMsg s => m' = { m with diagContent := s } ∧ cs = []
  | .yamlMsg s => m' = { m with yamlContent := s } ∧ cs = []
  | .deleteMsg s => m' = { m with msg := s } ∧ cs = [.fetchPods]
  | .nilMsg => m' = m ∧ cs = []

/-- The `initialModel` value (part_000 lines 185-196): fields of external handles are
dropped; everything else is the Go zero value or the explicit initializer. -/
def initialModel : Model :=
  { pods := [], filteredPods := [], clusterStats := ClusterStats.zero,
    namespaces := ["ALL"], currentNsIdx := 0, state := .viewList,
    sort := .sortDefault, cursor := 0, showIssues := false, loading := true,
    msg := "", textInputValue := "", searchActive := false,
    podToDelete := none, logContent := "", diagContent := "",
    yamlContent := "", selectedPod := none, containerList := [],
    containerCursor := 0, targetAction := "", width := 0, height := 0,
    activeForwards := [] }

/-- States reachable from the initial model by any event sequence. -/
inductive Reachable : Model → Prop where
  | init : Reachable initialModel
  | step {m ev m' cs} : Reachable m → StepRel m ev m' cs → Reachable m'

/-- The cursor invariant claimed by the specification: a valid index into the
filtered view, or zero when that view is empty. -/
def CursorInv (m : Model) : Prop :=
  m.cursor < m.filteredPods.length ∨ (m.filteredPods = [] ∧ m.cursor = 0)

/-! ### Raw cluster data, as consumed by `fetchPods` (part_000 lines 864-938)

These mirror the fields of `corev1.Pod` that the loop actually reads.  A nil
pointer (`State.Waiting`, `State.Terminated`) is `none`. -/

/-- From `corev1.ContainerStateWaiting`: only `Reason` is read. -/
structure ContainerStateWaiting where
  Reason : String
deriving DecidableEq, Repr

/-- From `corev1.ContainerStateTerminated`: `Reason` and `ExitCode` are read. -/
structure ContainerStateTerminated where
  Reason : String
  ExitCode : Int
deriving DecidableEq, Repr

/-- From `corev1.ContainerState`, with its two nilable branches read by the loop. -/
structure ContainerState where
  Waiting : Option ContainerStateWaiting
  Terminated : Option ContainerStateTerminated
deriving DecidableEq, Repr

/-- From `corev1.ContainerStatus`: restart count, readiness and current state. -/
structure ContainerStatus where
  RestartCount : Int
  Ready : Bool
  State : ContainerState
deriving DecidableEq, Repr

/-- A declared container from `p.Spec.Containers`: name and declared ports. -/
structure SpecContainer where
  Name : String
  Ports : List Int
deriving DecidableEq, Repr

/-- The slice of a `corev1.Pod` that `fetchPods` reads.  `Age` carries the
already-formatted age string (wall-clock formatting is out of scope). -/
structure Pod where
  Namespace : String
  Name : String
  Phase : String
  ContainerStatuses : List ContainerStatus
  SpecContainers : List SpecContainer
  NodeName : String
  PodIP : String
  Age : String
deriving DecidableEq, Repr

/-- One item of the pod-metrics list: per-container (cpu millicores, memory
bytes) samples summed by the fetch loop. -/
structure PodMetric where
  Namespace : String
  Name : String
  Containers : List (Int × Int)
deriving DecidableEq, Repr

/-! ### Note resolution inside the `fetchPods` loop (part_000 lines 898-917) -/

/-- The terminated-branch of the per-container message update: a non-empty
terminated reason replaces the note, with the exit code appended when it is
non-zero; otherwise the note is unchanged. -/
def noteTerm (msg : String) (c : ContainerStatus) : String :=
  match c.State.Terminated with
  | some t =>
    if t.Reason ≠ "" then
      if t.ExitCode ≠ 0 then t.Reason ++ " (" ++ toString t.ExitCode ++ ")"
      else t.Reason
    else msg
  | none => msg

/-- One iteration of the message loop: a non-empty waiting reason wins,
else the terminated branch is consulted. -/
def noteStep (msg : String) (c : ContainerStatus) : String :=
  match c.State.Waiting with
  | some w => if w.Reason ≠ "" then w.Reason else noteTerm msg c
  | none => noteTerm msg c

/-- Ready containers among the status list. -/
def readyCount (p : Pod) : Nat :=
  (p.ContainerStatuses.filter (fun c => c.Ready)).length

/-- The one-line note of a pod: the loop folds `noteStep` over the container
statuses starting from `"[OK]"`; afterwards phase Running with every status
ready forces `"[OK]"`, and phase Succeeded forces `"Completed"`. -/
def podNote (p : Pod) : String :=
  let base := p.ContainerStatuses.foldl noteStep "[OK]"
  let base1 :=
    if p.Phase = "Running" ∧ readyCount p = p.ContainerStatuses.length then
      "[OK]"
    else base
  if p.Phase = "Succeeded" then "Completed" else base1

/-- First declared port of the first declared container, else 0
(part_000 lines 889-892). -/
def firstPort (cs : List SpecContainer) : Int :=
  match cs with
  | [] => 0
  | c :: _ =>
    match c.Ports with
    | [] => 0
    | q :: _ => q

/-- Go-map lookup over the association list built from the metrics items:
the LAST binding of a key wins, as for repeated Go map assignment. -/
def mapLookup (l : List (String × Int × Int)) (k : String) :
    Option (Int × Int) :=
  (l.reverse.find? (fun e => e.1 == k)).map (fun e => e.2)

/-- The usage map `uMap` (part_000 lines 870-881): absent metrics (`nil`
list) produce an empty map; each item sums its containers. -/
def buildUsageMap (mList : Option (List PodMetric)) :
    List (String × Int × Int) :=
  match mList with
  | none => []
  | some items =>
    items.map (fun i =>
      (i.Namespace ++ "/" ++ i.Name,
       i.Containers.foldl (fun a c => a + c.1) 0,
       i.Containers.foldl (fun a c => a + c.2) 0))

/-- The body of the `fetchPods` per-pod loop (part_000 lines 884-935). -/
def buildPodInfo (uMap : List (String × Int × Int)) (p : Pod) : PodInfo :=
  let r : Int := p.ContainerStatuses.foldl (fun a c => a + c.RestartCount) 0
  let ready := readyCount p
  let total := p.ContainerStatuses.length
  let usage := mapLookup uMap (p.Namespace ++ "/" ++ p.Name)
  { Namespace := p.Namespace
    Name := p.Name
    Ready := toString ready ++ "/" ++ toString total
    Status := p.Phase
    Restarts := r
    CpuUsage := match usage with
      | some u => toString u.1 ++ "m"
      | none => "-"
    MemUsage := match usage with
      | some u => toString (u.2 / (1024 * 1024)) ++ "Mi"
      | none => "-"
    RawCpu := match usage with
      | some u => u.1
      | none => 0
    RawMem := match usage with
      | some u => u.2
      | none => 0
    NodeName := p.NodeName
    PodIP := p.PodIP
    IsReady := decide ((ready = total ∧ 0 < total) ∨ p.Phase = "Succeeded")
    Message := podNote p
    Port := firstPort p.SpecContainers
    Age := p.Age
    Containers := p.SpecContainers.map (fun c => c.Name) }

/-- Function `fetchPods` (part_000 lines 864-938) as a function of the two cluster
calls it makes: a failed pod list yields a `nil` message; absent metrics are
non-fatal. -/
def fetchPods (pList : Except String (List Pod))
    (mList : Option (List PodMetric)) : Ev :=
  match pList with
  | .error _ => .nilMsg
  | .ok pods => .podsMsg (pods.map (buildPodInfo (buildUsageMap mList)))

/-- Allocatable capacity of one node, as read by `fetchClusterStats`. -/
structure Node where
  cpuMilli : Int
  memBytes : Int
deriving DecidableEq, Repr

/-- One node-metrics item: current usage. -/
structure NodeMetric where
  cpuMilli : Int
  memBytes : Int
deriving DecidableEq, Repr

/-- Function `fetchClusterStats` (part_000 lines 784-807): a failed node list returns
`statsMsg(ClusterStats{})` — the ZERO value, not the previous snapshot;
absent node metrics leave usage at 0. -/
def fetchClusterStats (nodes : Except String (List Node))
    (nodeMetrics : Option (List NodeMetric)) : Ev :=
  match nodes with
  | .error _ => .statsMsg ClusterStats.zero
  | .ok ns =>
    let caps : Int × Int :=
      ns.foldl (fun a n => (a.1 + n.cpuMilli, a.2 + n.memBytes)) ((0, 0) : Int × Int)
    let use : Int × Int :=
      match nodeMetrics with
      | none => ((0, 0) : Int × Int)
      | some ms =>
        ms.foldl (fun a n => (a.1 + n.cpuMilli, a.2 + n.memBytes)) ((0, 0) : Int × Int)
    .statsMsg
      { TotalCpuUsage := use.1, TotalMemUsage := use.2,
        TotalCpuCap := caps.1, TotalMemCap := caps.2,
        NodeCount := ns.length }

/-- Function `deletePod` (part_000 lines 821-826) as a function of the cluster's
response: the error return of `Delete` is DISCARDED, the message is always
"Pod deleted.". -/
def deleteResult (_r : Except String Unit) : Ev :=
  .deleteMsg "Pod deleted."

/-- Function `cleanseNamespace` (part_000 lines 714-721): a failed `DeleteCollection`
is reported with the error text embedded; success reports the namespace. -/
def cleanseResult (r : Except String Unit) (ns : String) : Ev :=
  match r with
  | .error e => .deleteMsg ("Cleanse failed: " ++ e)
  | .ok _ =>
    .deleteMsg ("ALL PODS IN \x27" ++ ns ++ "\x27 HAVE BEEN DELETED.")

/-- Non-empty waiting reasons of a pod's containers, in container order. -/
def waitingReasons (p : Pod) : List String :=
  p.ContainerStatuses.filterMap (fun c =>
    match c.State.Waiting with
    | some w => if w.Reason ≠ "" then some w.Reason else none
    | none => none)

/-- The note contributed by a single container, if any: its non-empty
waiting reason, else its non-empty terminated reason with appended non-zero
exit code. -/
def containerNote (c : ContainerStatus) : Option String :=
  match c.State.Waiting with
  | some w =>
    if w.Reason ≠ "" then some w.Reason
    else
      match c.State.Terminated with
      | some t =>
        if t.Reason ≠ "" then
          if t.ExitCode ≠ 0 then
            some (t.Reason ++ " (" ++ toString t.ExitCode ++ ")")
          else some t.Reason
        else none
      | none => none
  | none =>
    match c.State.Terminated with
    | some t =>
      if t.Reason ≠ "" then
        if t.ExitCode ≠ 0 then
          some (t.Reason ++ " (" ++ toString t.ExitCode ++ ")")
        else some t.Reason
      else none
    | none => none

/-- The note of the LAST container that contributes one, if any. -/
def lastNote : List ContainerStatus → Option String
  | [] => none
  | c :: t =>
    match lastNote t with
    | some s => some s
    | none => containerNote c

/-! ### Derived specification predicates -/

/-- Two pods tie under the active comparator (neither is less than the other). -/
def tiesWith (mode : sortMode) (p q : PodInfo) : Bool :=
  !podLess mode p q && !podLess mode q p

/-- Stability of a sort outcome: every comparator-equal class appears in the
output in its input order. -/
def StableFor (mode : sortMode) (l out : List PodInfo) : Prop :=
  ∀ p, out.filter (tiesWith mode p) = l.filter (tiesWith mode p)

/-- The pagination window properties of the specification that the code
satisfies: capacity at least 1, window no longer than the capacity, window
end inside the list, cursor inside the window, and the claimed start
formula. -/
def PaginationSpec (m : Model) : Prop :=
  1 ≤ perPageOf m.height ∧
  (calculatePagination m).2 - (calculatePagination m).1 ≤ perPageOf m.height ∧
  (calculatePagination m).2 ≤ (m.filteredPods.length : Int) ∧
  (calculatePagination m).1 ≤ (m.cursor : Int) ∧
  (m.cursor : Int) < (calculatePagination m).2 ∧
  (perPageOf m.height ≤ (m.cursor : Int) →
    (calculatePagination m).1 = max 0 ((m.cursor : Int) - perPageOf m.height + 1)) ∧
  ((m.cursor : Int) < perPageOf m.height → (calculatePagination m).1 = 0)

/-! ### Concrete instances for witnesses and counterexamples -/

/-- An abnormal pod: Pending and not ready. -/
def pPend : PodInfo :=
  { Namespace := "default", Name := "api", Ready := "0/1", Status := "Pending",
    Restarts := 0, CpuUsage := "-", MemUsage := "-", RawCpu := 0, RawMem := 0,
    NodeName := "n1", PodIP := "10.0.0.5", IsReady := false, Message := "x",
    Port := 80, Age := "2m", Containers := ["app"] }

/-- Model with one abnormal pod and the issues-only toggle on. -/
def mW1 : Model := { initialModel with pods := [pPend], showIssues := true }

/-- Two pods with EQUAL CPU usage and distinct names. -/
def pCpuA : PodInfo := { pPend with Name := "aaa", RawCpu := 100 }

/-- Tie partner of `pCpuA`. -/
def pCpuB : PodInfo := { pPend with Name := "bbb", RawCpu := 100 }

/-- Model at terminal height 13: the viewport capacity computes to 1. -/
def mC3 : Model :=
  { initialModel with height := 13, filteredPods := [pPend, pCpuA], cursor := 1 }

/-- Model at a comfortable terminal height for the pagination witness. -/
def mW3 : Model :=
  { initialModel with height := 30, filteredPods := [pPend, pCpuA], cursor := 1 }

/-- Model holding a non-zero previously displayed cluster summary. -/
def mC4 : Model :=
  { initialModel with clusterStats :=
      { TotalCpuUsage := 10, TotalMemUsage := 20, TotalCpuCap := 30,
        TotalMemCap := 40, NodeCount := 3 } }

/-- Running pod whose first container is waiting (CrashLoopBackOff) and whose
second container terminated with reason Error and exit code 1. -/
def podC5 : Pod :=
  { Namespace := "default", Name := "web", Phase := "Running",
    ContainerStatuses :=
      [ { RestartCount := 3, Ready := false,
          State := { Waiting := some { Reason := "CrashLoopBackOff" },
                     Terminated := none } },
        { RestartCount := 0, Ready := false,
          State := { Waiting := none,
                     Terminated := some { Reason := "Error", ExitCode := 1 } } } ],
    SpecContainers := [ { Name := "c1", Ports := [8080] },
                        { Name := "c2", Ports := [] } ],
    NodeName := "n1", PodIP := "10.0.0.9", Age := "5m" }

/-- Pending pod named "aaa" (its name contains the search letter). -/
def p6a : PodInfo := { pPend with Name := "aaa" }

/-- Pending pod named "zzz" (its name avoids the search letter). -/
def p6z : PodInfo := { pPend with Name := "zzz" }

/-- After the first pod snapshot: two pods, cursor clamped to 0. -/
def m61 : Model :=
  { initialModel with pods := [p6a, p6z], loading := false,
                      filteredPods := [p6a, p6z] }

/-- After pressing the down key: cursor on the second row. -/
def m62 : Model := { m61 with cursor := 1 }

/-- After pressing "/": search mode active. -/
def m63 : Model := { m62 with searchActive := true }

/-- After typing "a" in search mode: the view narrows to one pod but the
cursor is still 1 — outside the filtered list. -/
def m64 : Model :=
  { m63 with textInputValue := "a", filteredPods := [p6a] }

/-- Model sitting in the cleanse confirmation for namespace "prod". -/
def m7 : Model :=
  { initialModel with state := .viewCleanseConfirm,
                      namespaces := ["ALL", "prod"], currentNsIdx := 1 }

/-- After confirming the cleanse: back to the list. -/
def m7a : Model := { m7 with state := .viewList }

/-- After the failed cleanse result arrives: error in the status line. -/
def m7b : Model := { m7a with msg := "Cleanse failed: denied" }

/-- Pod with exactly one declared container. -/
def p8 : PodInfo := { pPend with Containers := ["web"] }

/-- Model with a staged pod for the delete/restart confirmations. -/
def m9 : Model := { initialModel with podToDelete := some pPend }

/-- Result of confirming in RestartConfirm. -/
def m9r : Model :=
  { m9 with msg := "Restarting api...", podToDelete := none, state := .viewList }

/-- Result of confirming in DeleteConfirm. -/
def m9d : Model :=
  { m9 with msg := "Deleting api...", podToDelete := none, state := .viewList }

/-- Model with two known namespaces, about to cycle. -/
def mW10 : Model :=
  { initialModel with namespaces := ["ALL", "default"], pods := [p6a] }

/-- Model `mW10` after the namespace-cycle key. -/
def m10s : Model :=
  { mW10 with currentNsIdx := 1, filteredPods := [p6a] }

/-! ## Helper lemmas -/

/-- Every character list is a prefix of itself (boolean version). -/
theorem isPrefixOfSelf : ∀ l : List Char, l.isPrefixOf l = true
  | [] => rfl
  | c :: t => by simp [List.isPrefixOf, isPrefixOfSelf t]

/-- A list occurs as a substring of itself. -/
theorem subListSelf (n : List Char) : subList n n = true := by
  cases n with
  | nil => rfl
  | cons c t => simp [subList, isPrefixOfSelf]

/-- A suffix occurs as a substring. -/
theorem subListAppend (n : List Char) : ∀ pre, subList n (pre ++ n) = true
  | [] => by simpa using subListSelf n
  | p :: pre => by
    cases hn : pre ++ n with
    | nil => simp [subList, hn, List.append_eq_nil.mp hn]
    | cons c t => simp [subList, ← hn, subListAppend n pre]

/-- Go `strings.Contains (a ++ b) b` always holds. -/
theorem strContainsAppend (a b : String) : strContains (a ++ b) b = true := by
  unfold strContains
  rw [String.data_append]
  exact subListAppend b.data a.data

/-- A key event in `viewList` state steps by `listKey`. -/
theorem stepKeyList {m : Model} {k : String} {m' : Model} {cs : List Cmd}
    (h1 : m.searchActive = false) (h2 : m.state = .viewList)
    (h3 : listKey m k m' cs) : StepRel m (.key k) m' cs := by
  unfold StepRel
  rw [h1, h2]
  simpa using h3

/-! ## C1: issues-only filter -/

/-- C1.  With the issues-only toggle enabled, a pod of the snapshot that
passes the namespace and search predicates is retained by `filterPods` if
and only if NOT(its Status is "Running" or "Succeeded" AND its restart
count is 0 AND it is fully ready). -/
theorem C1_issuesOnlyFilter (m : Model) (out : List PodInfo) (p : PodInfo)
    (hIss : m.showIssues = true)
    (hF : FilterOk m out)
    (hmem : p ∈ m.pods)
    (hns : selectedNsOf m = "ALL" ∨ p.Namespace = selectedNsOf m)
    (hsearch : strToLower m.textInputValue = "" ∨
      strContains (strToLower p.Name) (strToLower m.textInputValue) = true) :
    p ∈ out ↔
      ¬((p.Status = "Running" ∨ p.Status = "Succeeded") ∧ p.Restarts = 0 ∧
        p.IsReady = true) := by
  have hmm : p ∈ filterPodsSet m ↔ p ∈ out := hF.1.mem_iff
  rw [← hmm]
  unfold filterPodsSet
  rw [List.mem_filter]
  have h1 : ¬(selectedNsOf m ≠ "ALL" ∧ p.Namespace ≠ selectedNsOf m) := by
    rcases hns with h | h
    · exact fun hc => hc.1 h
    · exact fun hc => hc.2 h
  have h3 : ¬(strToLower m.textInputValue ≠ "" ∧
      strContains (strToLower p.Name) (strToLower m.textInputValue) = false) := by
    rcases hsearch with h | h
    · exact fun hc => hc.1 h
    · intro hc
      rw [h] at hc
      simp at hc
  constructor
  · intro hin hbad
    have hk := hin.2
    unfold keepPod at hk
    rw [if_neg h1, if_pos ⟨hIss, hbad⟩] at hk
    exact Bool.false_ne_true hk
  · intro hgood
    refine ⟨hmem, ?_⟩
    unfold keepPod
    rw [if_neg h1, if_neg (fun hc => hgood hc.2), if_neg h3]

/-- C1 witness: the Pending, not-ready pod is retained by the issues-only
filter. -/
theorem C1_issuesOnlyFilter_w :
    mW1.showIssues = true ∧ FilterOk mW1 [pPend] ∧ pPend ∈ mW1.pods ∧
    (pPend ∈ [pPend] ↔
      ¬((pPend.Status = "Running" ∨ pPend.Status = "Succeeded") ∧
        pPend.Restarts = 0 ∧ pPend.IsReady = true)) := by
  have hF : FilterOk mW1 [pPend] := ⟨by decide, by decide⟩
  exact ⟨rfl, hF, by decide,
    C1_issuesOnlyFilter mW1 [pPend] pPend rfl hF (by decide) (by decide)
      (by decide)⟩

/-! ## C3: pagination window -/

/-- C3 counterexample: at terminal height 13 the viewport capacity is
`13 - 12 = 1`, which is NOT at least 5 — the claimed minimum of 5 only
applies when `height - 12` is non-positive.  The window indeed has length
1 there. -/
theorem C3_minCapacity_cex :
    perPageOf mC3.height = 1 ∧ ¬(5 ≤ perPageOf mC3.height) ∧
    calculatePagination mC3 = (1, 2) := by
  refine ⟨by decide, by decide, by decide⟩

/-- C3 (amended).  For a valid cursor, `calculatePagination` returns a
window whose length never exceeds the capacity `P = height - 12` (5 only
when that is non-positive, so `P ≥ 1` but possibly `< 5`), whose end never
exceeds the list length, that contains the cursor, and whose start is
`max 0 (cursor - P + 1)` when `cursor ≥ P` and 0 otherwise. -/
theorem C3_pagination (m : Model) (h : m.cursor < m.filteredPods.length) :
    PaginationSpec m := by
  have hc : (m.cursor : Int) < (m.filteredPods.length : Int) := by
    exact_mod_cast h
  have hc0 : (0 : Int) ≤ (m.cursor : Int) := Int.ofNat_nonneg m.cursor
  have hP : 1 ≤ perPageOf m.height := by
    unfold perPageOf
    split
    · omega
    · omega
  unfold PaginationSpec calculatePagination
  refine ⟨hP, ?_⟩
  simp only []
  split
  · split
    · refine ⟨by omega, by omega, by omega, by omega, ?_, fun _ => rfl⟩
      intro hpc
      exact absurd hpc (by omega)
    · refine ⟨by omega, by omega, by omega, by omega, ?_, ?_⟩
      · intro hpc
        rw [max_eq_right (by omega)]
      · intro hcp
        exact absurd hcp (by omega)
  · refine ⟨by omega, by omega, by omega, by omega, ?_, fun _ => rfl⟩
    intro hpc
    exact absurd hpc (by omega)

/-- C3 witness: the pagination properties at height 30, two pods, cursor 1. -/
theorem C3_pagination_w :
    mW3.cursor < mW3.filteredPods.length ∧ PaginationSpec mW3 :=
  ⟨by decide, C3_pagination mW3 (by decide)⟩

/-! ## C4: fetch-failure handling -/

/-- C4 counterexample: a failed cluster-summary fetch does NOT leave the
previous summary in place — `fetchClusterStats` returns `statsMsg` carrying
the ZERO `ClusterStats`, and processing it overwrites the non-zero previous
snapshot. -/
theorem C4_statsBlank_cex :
    ∃ m', StepRel mC4 (fetchClusterStats (.error "boom") none) m' [] ∧
      m'.clusterStats = ClusterStats.zero ∧
      m'.clusterStats ≠ mC4.clusterStats :=
  ⟨{ mC4 with clusterStats := ClusterStats.zero },
    ⟨rfl, rfl⟩, rfl, by decide⟩

/-- C4 (amended).  A failed workload-list fetch yields a `nil` message and
leaves the whole model unchanged; a failed cluster-summary fetch leaves the
pod snapshot in place but RESETS `clusterStats` to the zero value. -/
theorem C4_fetchFailure (m m1 m2 : Model) (cs1 cs2 : List Cmd)
    (e1 e2 : String) (mm : Option (List PodMetric))
    (o : Option (List NodeMetric))
    (h1 : StepRel m (fetchPods (.error e1) mm) m1 cs1)
    (h2 : StepRel m1 (fetchClusterStats (.error e2) o) m2 cs2) :
    m1 = m ∧ m2.pods = m.pods ∧ m2.filteredPods = m.filteredPods ∧
    m2.clusterStats = ClusterStats.zero := by
  obtain ⟨hm1, -⟩ := h1
  obtain ⟨hm2, -⟩ := h2
  subst hm2
  subst hm1
  exact ⟨rfl, rfl, rfl, rfl⟩

/-- C4 witness: both failure messages processed from the concrete model with
a non-zero summary. -/
theorem C4_fetchFailure_w :
    StepRel mC4 (fetchPods (.error "x") none) mC4 [] ∧
    StepRel mC4 (fetchClusterStats (.error "y") none)
      { mC4 with clusterStats := ClusterStats.zero } [] ∧
    (mC4 = mC4 ∧
      ({ mC4 with clusterStats := ClusterStats.zero } : Model).pods = mC4.pods ∧
      ({ mC4 with clusterStats := ClusterStats.zero } : Model).filteredPods =
        mC4.filteredPods ∧
      ({ mC4 with clusterStats := ClusterStats.zero } : Model).clusterStats =
        ClusterStats.zero) := by
  refine ⟨⟨rfl, rfl⟩, ⟨rfl, rfl⟩, ?_⟩
  exact C4_fetchFailure mC4 mC4 { mC4 with clusterStats := ClusterStats.zero }
    [] [] "x" "y" none none ⟨rfl, rfl⟩ ⟨rfl, rfl⟩

/-! ## C5: one-line note resolution -/

/-- One loop iteration equals "this container's note, defaulting to the
note so far". -/
theorem noteStepEq (msg : String) (c : ContainerStatus) :
    noteStep msg c = (containerNote c).getD msg := by
  unfold noteStep noteTerm containerNote
  cases c.State.Waiting with
  | none =>
    cases c.State.Terminated with
    | none => rfl
    | some t =>
      by_cases hr : t.Reason ≠ ""
      · by_cases he : t.ExitCode ≠ 0 <;> simp [hr, he]
      · simp [hr]
  | some w =>
    by_cases hw : w.Reason ≠ ""
    · simp [hw]
    · cases c.State.Terminated with
      | none => simp [hw]
      | some t =>
        by_cases hr : t.Reason ≠ ""
        · by_cases he : t.ExitCode ≠ 0 <;> simp [hw, hr, he]
        · simp [hw, hr]

/-- The message loop keeps the note of the LAST container that has one,
falling back to the initial note. -/
theorem foldlNoteStep : ∀ (l : List ContainerStatus) (init : String),
    l.foldl noteStep init = (lastNote l).getD init
  | [], _ => rfl
  | c :: t, init => by
    simp only [List.foldl_cons, lastNote]
    rw [foldlNoteStep t (noteStep init c)]
    cases h : lastNote t with
    | some s => simp [h]
    | none => simp [h, noteStepEq]

/-- C5 counterexample: `podC5`'s first container has waiting reason
"CrashLoopBackOff", yet the note built by `fetchPods` is the SECOND
container's terminated reason "Error (1)" — the loop lets later containers
overwrite earlier ones instead of giving waiting reasons global priority. -/
theorem C5_notePriority_cex :
    waitingReasons podC5 = ["CrashLoopBackOff"] ∧
    podNote podC5 = "Error (1)" ∧
    (buildPodInfo [] podC5).Message = "Error (1)" ∧
    podNote podC5 ∉ waitingReasons podC5 := by
  refine ⟨by decide, by decide, by decide, by decide⟩

/-- C5 (amended).  The note is resolved as: "Completed" when the phase is
Succeeded; else "[OK]" when the phase is Running and every container status
is ready (both overriding container reasons); else the note of the LAST
container that has one — per container the waiting reason beats the
terminated reason (with non-zero exit code appended) — else "[OK]". -/
theorem C5_noteResolution (p : Pod) :
    podNote p =
      if p.Phase = "Succeeded" then "Completed"
      else if p.Phase = "Running" ∧ readyCount p = p.ContainerStatuses.length
        then "[OK]"
      else (lastNote p.ContainerStatuses).getD "[OK]" := by
  unfold podNote
  rw [foldlNoteStep]

/-! ## C7: destructive-action failures -/

/-- C7 counterexample: a single-pod delete rejected by the cluster with
"forbidden" still produces the status message "Pod deleted." — the error is
discarded, not surfaced. -/
theorem C7_deleteError_cex :
    deleteResult (.error "forbidden") = Ev.deleteMsg "Pod deleted." ∧
    strContains "Pod deleted." "forbidden" = false := by
  exact ⟨rfl, by decide⟩

/-- C7 (amended).  A failed namespace cleanse is surfaced: confirming in
CleanseConfirm returns the state to List and dispatches the cleanse; the
failure message embeds the cluster's error verbatim and its processing sets
the status line without leaving List.  A failed single delete/restart,
however, always reports "Pod deleted.", discarding the error. -/
theorem C7_errorSurface (m m1 m2 : Model) (cs1 cs2 : List Cmd) (e : String)
    (hs : m.searchActive = false) (hst : m.state = .viewCleanseConfirm)
    (h1 : StepRel m (.key "y") m1 cs1)
    (h2 : StepRel m1 (cleanseResult (.error e) (selectedNsOf m)) m2 cs2) :
    m1.state = .viewList ∧ cs1 = [.cleanse (selectedNsOf m)] ∧
    m2.state = .viewList ∧ m2.msg = "Cleanse failed: " ++ e ∧
    strContains m2.msg e = true ∧ cs2 = [.fetchPods] ∧
    (∀ r : Except String Unit, deleteResult r = Ev.deleteMsg "Pod deleted.") := by
  unfold StepRel at h1
  rw [hs, hst] at h1
  simp only [Bool.false_eq_true, if_false] at h1
  unfold cleanseKey at h1
  rw [if_pos (Or.inl rfl)] at h1
  obtain ⟨hm1, hcs1⟩ := h1
  obtain ⟨hm2, hcs2⟩ := h2
  subst hm2
  subst hm1
  refine ⟨rfl, hcs1, rfl, rfl, ?_, hcs2, fun r => rfl⟩
  exact strContainsAppend "Cleanse failed: " e

/-- C7 witness: the cleanse-failure scenario from namespace "prod" with
error "denied". -/
theorem C7_errorSurface_w :
    m7.searchActive = false ∧ m7.state = .viewCleanseConfirm ∧
    (m7a.state = .viewList ∧
      [Cmd.cleanse (selectedNsOf m7)] = [.cleanse (selectedNsOf m7)] ∧
      m7b.state = .viewList ∧ m7b.msg = "Cleanse failed: " ++ "denied" ∧
      strContains m7b.msg "denied" = true ∧
      ([Cmd.fetchPods] : List Cmd) = [.fetchPods] ∧
      (∀ r : Except String Unit,
        deleteResult r = Ev.deleteMsg "Pod deleted.")) := by
  refine ⟨rfl, rfl, ?_⟩
  have h1 : StepRel m7 (.key "y") m7a [Cmd.cleanse (selectedNsOf m7)] := by
    unfold StepRel m7
    exact ⟨by decide, by decide⟩
  have h2 : StepRel m7a (cleanseResult (.error "denied") (selectedNsOf m7))
      m7b [Cmd.fetchPods] := by
    refine ⟨by decide, rfl⟩
  exact C7_errorSurface m7 m7a m7b [Cmd.cleanse (selectedNsOf m7)]
    [Cmd.fetchPods] "denied" rfl rfl h1 h2

/-! ## C8: container disambiguation -/

/-- C8.  For a view-logs or open-shell action, `initiateAction` enters the
container-picker state iff the pod has more than one container; otherwise
the action resolves at once with the container designator `headD ""`, which
is the single container's name when there is one and `""` when there are
none. -/
theorem C8_containerPicker (m : Model) (p : PodInfo) (act : String)
    (hst : m.state = .viewList) (ha : act = "logs" ∨ act = "shell") :
    ((initiateAction m p act).1.state = .viewContainerSelect ↔
      1 < p.Containers.length) ∧
    (¬ 1 < p.Containers.length →
      (act = "logs" → (initiateAction m p act).1.state = .viewLogs ∧
        (initiateAction m p act).2 =
          [.fetchLogs p (p.Containers.headD "")]) ∧
      (act = "shell" → (initiateAction m p act).1 = m ∧
        (initiateAction m p act).2 =
          [.openShell p.Namespace p.Name (p.Containers.headD "")])) ∧
    (p.Containers = [] → p.Containers.headD "" = "") ∧
    (∀ c, p.Containers = [c] → p.Containers.headD "" = c) := by
  unfold initiateAction
  by_cases h : 1 < p.Containers.length
  · rw [if_pos h]
    refine ⟨by simp [h], fun hn => absurd h hn, ?_, ?_⟩
    · intro hc
      rw [hc]
      rfl
    · intro c hc
      rw [hc]
      rfl
  · rw [if_neg h]
    rcases ha with ha | ha
    · subst ha
      rw [if_pos rfl]
      refine ⟨by simp [h], fun _ => ⟨fun _ => ⟨rfl, rfl⟩, fun habs => by simp at habs⟩, ?_, ?_⟩
      · intro hc
        rw [hc]
        rfl
      · intro c hc
        rw [hc]
        rfl
    · subst ha
      rw [if_neg (by decide)]
      refine ⟨by simp [h, hst], fun _ => ⟨fun habs => by simp at habs, fun _ => ⟨rfl, rfl⟩⟩, ?_, ?_⟩
      · intro hc
        rw [hc]
        rfl
      · intro c hc
        rw [hc]
        rfl

/-- C8 witness: a single-container pod resolves the logs action at once with
that container's name. -/
theorem C8_containerPicker_w :
    initialModel.state = sessionState.viewList ∧
    (((initiateAction initialModel p8 "logs").1.state =
        .viewContainerSelect ↔ 1 < p8.Containers.length) ∧
      (¬ 1 < p8.Containers.length →
        ("logs" = "logs" →
          (initiateAction initialModel p8 "logs").1.state = .viewLogs ∧
          (initiateAction initialModel p8 "logs").2 =
            [.fetchLogs p8 (p8.Containers.headD "")]) ∧
        ("logs" = "shell" →
          (initiateAction initialModel p8 "logs").1 = initialModel ∧
          (initiateAction initialModel p8 "logs").2 =
            [.openShell p8.Namespace p8.Name (p8.Containers.headD "")])) ∧
      (p8.Containers = [] → p8.Containers.headD "" = "") ∧
      (∀ c, p8.Containers = [c] → p8.Containers.headD "" = c)) :=
  ⟨rfl, C8_containerPicker initialModel p8 "logs" rfl (Or.inl rfl)⟩

/-! ## C9: restart and delete share one operation -/

/-- C9.  With a staged pod, confirming in RestartConfirm and confirming in
DeleteConfirm dispatch the IDENTICAL single-pod delete command, clear the
staged target and return the session state to List. -/
theorem C9_restartDelete (m : Model) (p : PodInfo)
    (mr md : Model) (csr csd : List Cmd)
    (hs : m.searchActive = false) (hp : m.podToDelete = some p)
    (hr : StepRel { m with state := .viewRestartConfirm } (.key "y") mr csr)
    (hd : StepRel { m with state := .viewDeleteConfirm } (.key "y") md csd) :
    csr = csd ∧ csr = [.deletePod p] ∧
    mr.podToDelete = none ∧ md.podToDelete = none ∧
    mr.state = .viewList ∧ md.state = .viewList := by
  unfold StepRel at hr hd
  simp only [hs, Bool.false_eq_true, if_false] at hr hd
  unfold restartKey at hr
  unfold deleteKey at hd
  rw [if_pos (Or.inl rfl)] at hr hd
  obtain ⟨pr, hpr, hmr, hcsr⟩ := hr
  obtain ⟨pd, hpd, hmd, hcsd⟩ := hd
  have hpr' : pr = p := by
    rw [hp] at hpr
    exact (Option.some_inj.mp hpr).symm
  have hpd' : pd = p := by
    rw [hp] at hpd
    exact (Option.some_inj.mp hpd).symm
  subst hpr' hpd' hmr hmd hcsr hcsd
  exact ⟨rfl, rfl, rfl, rfl, rfl, rfl⟩

/-- C9 witness: the staged pod `pPend`, both confirmations from the concrete
model. -/
theorem C9_restartDelete_w :
    m9.searchActive = false ∧ m9.podToDelete = some pPend ∧
    ([Cmd.deletePod pPend] = [Cmd.deletePod pPend] ∧
      [Cmd.deletePod pPend] = [.deletePod pPend] ∧
      m9r.podToDelete = none ∧ m9d.podToDelete = none ∧
      m9r.state = .viewList ∧ m9d.state = .viewList) := by
  refine ⟨rfl, rfl, ?_⟩
  have hr : StepRel { m9 with state := .viewRestartConfirm } (.key "y") m9r
      [Cmd.deletePod pPend] := ⟨pPend, rfl, by decide, rfl⟩
  have hd : StepRel { m9 with state := .viewDeleteConfirm } (.key "y") m9d
      [Cmd.deletePod pPend] := ⟨pPend, rfl, by decide, rfl⟩
  exact C9_restartDelete m9 pPend m9r m9d [Cmd.deletePod pPend]
    [Cmd.deletePod pPend] rfl rfl hr hd

/-! ## C10: namespace-cycle key -/

/-- C10.  In List state with more than one known namespace, the "n" key
advances the namespace index cyclically, silently resets the sort mode to
default and the cursor to zero, and recomputes the filtered view; the pod
snapshot, cluster stats, issues-only toggle, search term, session state,
status line and namespace list are unchanged, and nothing is dispatched. -/
theorem C10_nsCycle (m m1 : Model) (cs : List Cmd)
    (hst : m.state = .viewList) (hs : m.searchActive = false)
    (hns : 1 < m.namespaces.length)
    (h : StepRel m (.key "n") m1 cs) :
    m1.currentNsIdx = nextNsIdx m ∧ m1.cursor = 0 ∧
    m1.sort = .sortDefault ∧ FilterOk m1 m1.filteredPods ∧
    m1.pods = m.pods ∧ m1.clusterStats = m.clusterStats ∧
    m1.showIssues = m.showIssues ∧ m1.textInputValue = m.textInputValue ∧
    m1.state = m.state ∧ m1.msg = m.msg ∧ m1.namespaces = m.namespaces ∧
    cs = [] := by
  unfold StepRel at h
  rw [hs, hst] at h
  simp only [Bool.false_eq_true, if_false] at h
  unfold listKey at h
  rw [if_neg (by decide), if_neg (by decide), if_neg (by decide),
      if_neg (by decide), if_neg (by decide), if_neg (by decide),
      if_pos (show ("n" : String) = "n" from rfl), if_pos hns] at h
  obtain ⟨out, hF, hm, hcs⟩ := h
  subst hm
  exact ⟨rfl, rfl, rfl, hF, rfl, rfl, rfl, rfl, rfl, rfl, rfl, hcs⟩

/-- C10 witness: cycling from "ALL" to "default" with one pod in that
namespace. -/
theorem C10_nsCycle_w :
    mW10.state = .viewList ∧ mW10.searchActive = false ∧
    1 < mW10.namespaces.length ∧
    (m10s.currentNsIdx = nextNsIdx mW10 ∧ m10s.cursor = 0 ∧
      m10s.sort = .sortDefault ∧ FilterOk m10s m10s.filteredPods ∧
      m10s.pods = mW10.pods ∧ m10s.clusterStats = mW10.clusterStats ∧
      m10s.showIssues = mW10.showIssues ∧
      m10s.textInputValue = mW10.textInputValue ∧
      m10s.state = mW10.state ∧ m10s.msg = mW10.msg ∧
      m10s.namespaces = mW10.namespaces ∧ ([] : List Cmd) = []) := by
  refine ⟨rfl, rfl, by decide, ?_⟩
  have h : StepRel mW10 (.key "n") m10s [] := by
    refine stepKeyList rfl rfl ?_
    unfold listKey
    rw [if_neg (by decide), if_neg (by decide), if_neg (by decide),
        if_neg (by decide), if_neg (by decide), if_neg (by decide),
        if_pos (show ("n" : String) = "n" from rfl), if_pos (by decide)]
    exact ⟨[p6a], ⟨by decide, by decide⟩, by decide, rfl⟩
  exact C10_nsCycle mW10 m10s [] rfl rfl (by decide) h

/-! ## C6: cursor validity -/

/-- C6 counterexample: the state reached by [pods snapshot of "aaa"/"zzz",
key down, key "/", typing "a"] is reachable, yet its cursor (1) is neither a
valid index into its one-element filtered view nor zero — the live search
keystroke re-ran `filterPods` without re-clamping the cursor. -/
theorem C6_cursor_cex : Reachable m64 ∧ ¬ CursorInv m64 := by
  constructor
  · have s1 : StepRel initialModel (.podsMsg [p6a, p6z]) m61 [] :=
      ⟨[p6a, p6z], ⟨by decide, by decide⟩, by decide, rfl⟩
    have s2 : StepRel m61 (.key "down") m62 [] := by
      refine stepKeyList rfl rfl ?_
      unfold listKey
      rw [if_neg (by decide), if_neg (by decide), if_pos (Or.inl rfl)]
      exact ⟨by decide, rfl⟩
    have s3 : StepRel m62 (.key "/") m63 [.blink] := by
      refine stepKeyList rfl rfl ?_
      unfold listKey
      rw [if_neg (by decide), if_neg (by decide), if_neg (by decide),
          if_pos (show ("/" : String) = "/" from rfl)]
      exact ⟨by decide, rfl⟩
    have s4 : StepRel m63 (.key "a") m64 [] :=
      ⟨[p6a], ⟨by decide, by decide⟩, by decide, rfl⟩
    exact .step (.step (.step (.step .init s1) s2) s3) s4
  · unfold CursorInv
    decide

/-- C6 (amended).  The cursor is re-clamped on every pods snapshot: after
processing any `podsMsg` event the cursor is a valid index into the new
filtered view, or zero when that view is empty.  (Events that re-run
`filterPods` without resetting the cursor — live search keystrokes, and the
sort keys after the namespace list changed under the current index — do not
re-clamp, so between snapshots the invariant can be violated, as the
counterexample shows.) -/
theorem C6_cursorClamp (m : Model) (ps : List PodInfo) (m' : Model)
    (cs : List Cmd) (h : StepRel m (.podsMsg ps) m' cs) : CursorInv m' := by
  obtain ⟨out, hF, hm, -⟩ := h
  subst hm
  unfold CursorInv
  dsimp only
  by_cases h1 : out.length ≤ m.cursor
  · by_cases h2 : 0 < out.length
    · left
      rw [if_pos h1, if_pos h2]
      omega
    · right
      refine ⟨List.length_eq_zero.mp (by omega), ?_⟩
      rw [if_pos h1, if_neg h2]
  · left
    rw [if_neg h1]
    omega

/-- C6 witness: the first pods snapshot leaves the cursor clamped at 0. -/
theorem C6_cursorClamp_w :
    StepRel initialModel (.podsMsg [p6a, p6z]) m61 [] ∧ CursorInv m61 := by
  have s1 : StepRel initialModel (.podsMsg [p6a, p6z]) m61 [] :=
    ⟨[p6a, p6z], ⟨by decide, by decide⟩, by decide, rfl⟩
  exact ⟨s1, C6_cursorClamp initialModel [p6a, p6z] m61 [] s1⟩

/-! ## C2: sorting -/

/-- Transitivity of the character-list order. -/
theorem charListLtTrans : ∀ (a b c : List Char), charListLt a b = true →
    charListLt b c = true → charListLt a c = true
  | [], [], _, h, _ => by simp [charListLt] at h
  | [], _ :: _, [], _, h => by simp [charListLt] at h
  | [], _ :: _, _ :: _, _, _ => by simp [charListLt]
  | _ :: _, [], _, h, _ => by simp [charListLt] at h
  | _ :: _, _ :: _, [], _, h => by simp [charListLt] at h
  | x :: xs, y :: ys, z :: zs, h1, h2 => by
    simp only [charListLt] at h1 h2 ⊢
    rcases lt_trichotomy x y with hxy | hxy | hxy
    · rcases lt_trichotomy y z with hyz | hyz | hyz
      · rw [if_pos (lt_trans hxy hyz)]
      · subst hyz
        rw [if_pos hxy]
      · rw [if_neg (lt_asymm hyz), if_pos hyz] at h2
        exact absurd h2 (by simp)
    · subst hxy
      rw [if_neg (lt_irrefl x), if_neg (lt_irrefl x)] at h1
      rcases lt_trichotomy x z with hxz | hxz | hxz
      · rw [if_pos hxz]
      · subst hxz
        rw [if_neg (lt_irrefl x), if_neg (lt_irrefl x)] at h2 ⊢
        exact charListLtTrans xs ys zs h1 h2
      · rw [if_neg (lt_asymm hxz), if_pos hxz] at h2
        exact absurd h2 (by simp)
    · rw [if_neg (lt_asymm hxy), if_pos hxy] at h1
      exact absurd h1 (by simp)

/-- Connectivity: two character lists neither of which is below the other
are equal. -/
theorem charListLtConn : ∀ (a b : List Char), charListLt a b = false →
    charListLt b a = false → a = b
  | [], [], _, _ => rfl
  | [], _ :: _, h, _ => by simp [charListLt] at h
  | _ :: _, [], _, h => by simp [charListLt] at h
  | x :: xs, y :: ys, h1, h2 => by
    simp only [charListLt] at h1 h2
    rcases lt_trichotomy x y with hxy | hxy | hxy
    · rw [if_pos hxy] at h1
      exact absurd h1 (by simp)
    · subst hxy
      rw [if_neg (lt_irrefl x), if_neg (lt_irrefl x)] at h1 h2
      rw [charListLtConn xs ys h1 h2]
    · rw [if_neg (lt_asymm hxy), if_pos hxy] at h2
      exact absurd h2 (by simp)

/-- Not-below is transitive for the character-list order. -/
theorem charListLtFalseTrans (a b c : List Char)
    (h1 : charListLt b a = false) (h2 : charListLt c b = false) :
    charListLt c a = false := by
  by_cases hca : charListLt c a = true
  · by_cases hab : charListLt a b = true
    · rw [charListLtTrans c a b hca hab] at h2
      exact absurd h2 (by simp)
    · have hab' : charListLt a b = false := by
        simpa using hab
      rcases charListLtConn a b hab' h1 with rfl
      rw [hca] at h2
      exact absurd h2 (by simp)
  · simpa using hca

/-- Not-below is transitive for each of the three comparators. -/
theorem podLessFalseTrans (mode : sortMode) (a b c : PodInfo)
    (h1 : podLess mode b a = false) (h2 : podLess mode c b = false) :
    podLess mode c a = false := by
  have hstr : ∀ x y z : String, strLt y x = false → strLt z y = false →
      strLt z x = false :=
    fun x y z hx hy => charListLtFalseTrans x.data y.data z.data hx hy
  cases mode with
  | sortCPU =>
    simp only [podLess, decide_eq_false_iff_not, not_lt] at h1 h2 ⊢
    omega
  | sortMem =>
    simp only [podLess, decide_eq_false_iff_not, not_lt] at h1 h2 ⊢
    omega
  | sortDefault =>
    by_cases ha : a.Status = "Running" <;>
      by_cases hb : b.Status = "Running" <;>
        by_cases hc : c.Status = "Running" <;>
          simp [podLess, ha, hb, hc] at h1 h2 ⊢ <;>
          first
            | rfl
            | exact hstr a.Name b.Name c.Name h1 h2

/-- A slice ordered by the comparator is pairwise ordered: no later element
is below an earlier one. -/
theorem sortedSlicePairwise (mode : sortMode) :
    ∀ l : List PodInfo, sortedSlice (podLess mode) l = true →
      l.Pairwise (fun a b => podLess mode b a = false)
  | [], _ => List.Pairwise.nil
  | [a], _ => by simp
  | a :: b :: t, h => by
    rw [sortedSlice, Bool.and_eq_true, Bool.not_eq_true'] at h
    obtain ⟨hab, hrest⟩ := h
    have hp := sortedSlicePairwise mode (b :: t) hrest
    refine List.Pairwise.cons ?_ hp
    intro c hc
    rcases List.mem_cons.mp hc with rfl | hc
    · exact hab
    · exact podLessFalseTrans mode a b c hab ((List.pairwise_cons.mp hp).1 c hc)

/-- C2 counterexample: the `sort.Slice` contract admits the output
`[pCpuB, pCpuA]` for the input `[pCpuA, pCpuB]` under CPU sort (the two pods
tie on `RawCpu`), and that output does NOT preserve the prior relative order
of the tied pair — `sort.Slice` gives no stability guarantee. -/
theorem C2_sortNotStable_cex :
    sortSliceOk (podLess .sortCPU) [pCpuA, pCpuB] [pCpuB, pCpuA] ∧
    ¬ StableFor .sortCPU [pCpuA, pCpuB] [pCpuB, pCpuA] := by
  refine ⟨⟨by decide, by decide⟩, ?_⟩
  intro h
  have hA := h pCpuA
  revert hA
  decide

/-- C2 (amended).  Every outcome of the sort is a permutation of the
filtered list that is pairwise ordered by the active comparator (for
CPU/memory: non-increasing usage); the relative order of comparator-equal
pods is NOT specified, since the program uses unstable `sort.Slice`. -/
theorem C2_sortContract (mode : sortMode) (l out : List PodInfo)
    (h : sortSliceOk (podLess mode) l out) :
    out.Perm l ∧ out.Pairwise (fun a b => podLess mode b a = false) :=
  ⟨h.1.symm, sortedSlicePairwise mode out h.2⟩

/-- C2 witness: the tied-CPU outcome is a permutation and pairwise ordered. -/
theorem C2_sortContract_w :
    sortSliceOk (podLess .sortCPU) [pCpuA, pCpuB] [pCpuB, pCpuA] ∧
    ([pCpuB, pCpuA].Perm [pCpuA, pCpuB] ∧
      List.Pairwise (fun a b => podLess .sortCPU b a = false)
        [pCpuB, pCpuA]) := by
  have h : sortSliceOk (podLess .sortCPU) [pCpuA, pCpuB] [pCpuB, pCpuA] :=
    ⟨by decide, by decide⟩
  exact ⟨h, C2_sortContract .sortCPU [pCpuA, pCpuB] [pCpuB, pCpuA] h⟩

end KubePulse
